import Mathlib

/-!
Verification of `devcontainer_enter.py` (sveint/devcontainer-enter).

The program is a thin orchestration script around the `docker` CLI.  Its core
logic is embedded shallowly here:

* the classifier `is_devcontainer` (pure string/regex logic, embedded over
  `List Char`, with the three `DEV_LABEL_KEY_PATTERNS` regexes translated to
  explicit prefix/token-occurrence predicates);
* the quoting routine `sh_quote` plus a POSIX word parser used to state the
  round-trip property;
* the provisioner `run_post_script_if_needed` and `docker_cp_to`, modelled as
  functions from a deterministic `Backend` oracle (the results the docker CLI
  and the host filesystem would return) to a trace of emitted `Action`s plus
  an `Outcome` (normal return, or `SystemExit code`);
* the driver `main`'s selection logic, modelled as `main_select` over the
  candidate list.

Strings are modelled as `List Char`; Python's `str.lower`/`str.upper` are
modelled by ASCII `Char.toLower`/`Char.toUpper`, and `str.strip` by trimming
the ASCII whitespace characters Python strips.
-/

namespace DCE

/-- Strings, modelled as lists of characters. -/
abbrev Chars := List Char

/-- The single-quote character (used pervasively by `sh_quote`). -/
def squote : Char := Char.ofNat 39

/-- The double-quote character. -/
def dquote : Char := Char.ofNat 34

/-- The backslash character. -/
def bslash : Char := Char.ofNat 92

/-- The backtick character. -/
def btick : Char := Char.ofNat 96

/-- Python `str.lower()` (ASCII model). -/
def lowerStr (s : Chars) : Chars := s.map Char.toLower

/-- Python `str.upper()` (ASCII model). -/
def upperStr (s : Chars) : Chars := s.map Char.toUpper

/-- The whitespace characters stripped by Python's `str.strip()`
(space, tab, newline, carriage return, vertical tab, form feed; ASCII model). -/
def isPySpace (c : Char) : Bool :=
  c = ' ' || c = '\t' || c = '\n' || c = '\r' || c = Char.ofNat 11 || c = Char.ofNat 12

/-- Python `str.strip()`: drop leading and trailing whitespace. -/
def pyStrip (s : Chars) : Chars :=
  ((s.dropWhile isPySpace).reverse.dropWhile isPySpace).reverse

/-- `DEV_ENV_VAR = "DEVCONTAINER=true"` from the source. -/
def DEV_ENV_VAR : Chars := ("DEVCONTAINER=true").data

/-- The separator class `[._-]` of the label-key regexes. -/
def isSep (c : Char) : Bool := c = '.' || c = '_' || c = '-'

/-- `s.get? i` is a separator character. -/
def sepAt (s : Chars) (i : Nat) : Bool :=
  match s[i]? with
  | some c => isSep c
  | none => false

/-- Semantics of `re.search(r"(?:^|[._-])tok(?:[._-]|$)", s)`: some occurrence
of `tok` in `s` whose left end is the start of the string or preceded by a
separator, and whose right end is the end of the string or followed by a
separator.  Scanned over all start positions. -/
def tokenHit (tok s : Chars) : Bool :=
  (List.range (s.length + 1)).any fun i =>
    tok.isPrefixOf (s.drop i) && (i == 0 || sepAt s (i - 1))
      && (i + tok.length == s.length || sepAt s (i + tok.length))

/-- Python `pat in s` substring containment. -/
def containsSub (pat : Chars) : Chars → Bool
  | [] => pat.isEmpty
  | c :: rest => pat.isPrefixOf (c :: rest) || containsSub pat rest

/-- A label key matches one of the three `DEV_LABEL_KEY_PATTERNS` regexes
(`^devcontainer\.`, `(?:^|[._-])devcontainer(?:[._-]|$)`,
`(?:^|[._-])vsch(?:[._-]|$)`), all with `re.IGNORECASE` (modelled by
lowercasing the key; the pattern literals are already lowercase). -/
def labelKeyHit (k : Chars) : Bool :=
  let lk := lowerStr k
  (("devcontainer.").data).isPrefixOf lk
    || tokenHit (("devcontainer").data) lk
    || tokenHit (("vsch").data) lk

/-- `NAME_PATTERNS = [re.compile(r"^vsc-", re.IGNORECASE)]` searched against
the container name: the name starts with `vsc-`, case-insensitively. -/
def nameHit (name : Chars) : Bool :=
  (("vsc-").data).isPrefixOf (lowerStr name)

/-- One environment entry matches: `e.strip().upper() == DEV_ENV_VAR.upper()`. -/
def envEntryHit (e : Chars) : Bool :=
  upperStr (pyStrip e) = upperStr DEV_ENV_VAR

/-- `is_devcontainer(labels, name, env)` from the source.  Labels are an
association list `key ↦ value` (the value already converted to text, as by
Python `str`). -/
def is_devcontainer (labels : List (Chars × Chars)) (name : Chars) (env : List Chars) : Bool :=
  if labels.any fun kv => labelKeyHit kv.1 then true
  else if labels.any fun kv => containsSub (("devcontainer").data) (lowerStr kv.2) then true
  else if nameHit name then true
  else if env.any envEntryHit then true
  else false

/-!  ## Quoting: `sh_quote` and a POSIX-shell word parser -/

/-- Python `"'" + s.replace("'", "'\"'\"'") + "'"` replaces every single
quote by the five characters close-quote, double-quoted quote, reopen-quote. -/
def replQuote (c : Char) : Chars :=
  if c = squote then [squote, dquote, squote, dquote, squote] else [c]

/-- `sh_quote(s)` from the source. -/
def sh_quote (s : Chars) : Chars :=
  squote :: (s.flatMap replQuote ++ [squote])

/-- Parser state of the POSIX word parser: outside quotes, inside single
quotes, inside double quotes. -/
inductive ShMode where
  | norm
  | single
  | double
deriving DecidableEq

/-- Characters that, unquoted, do not contribute themselves literally to a
single word under POSIX shell parsing: whitespace and operator characters end
the word or start an operator; `$`, backtick, glob and tilde characters
trigger expansions.  The parser rejects them so that a `some` result really
is a single literal word. -/
def shSpecial (c : Char) : Bool :=
  c = ' ' || c = '\t' || c = '\n' || c = '|' || c = '&' || c = ';'
    || c = '<' || c = '>' || c = '(' || c = ')' || c = '$' || c = btick
    || c = '*' || c = '?' || c = '[' || c = '~' || c = '#' || c = '='

/-- Parse an entire input as one literal word under POSIX shell quoting:
single quotes protect everything until the matching quote; double quotes
protect everything except `$`, backtick, `\` and `"` (backslash escapes
`$`, backtick, `"` and `\` inside double quotes); an unquoted backslash
escapes the next character.  Returns the word's literal value, or `none` if
the input is not exactly one fully-literal word. -/
def shWord : ShMode → Chars → Option Chars
  | ShMode.norm, [] => some []
  | ShMode.norm, c :: rest =>
    if c = squote then shWord ShMode.single rest
    else if c = dquote then shWord ShMode.double rest
    else if c = bslash then
      match rest with
      | [] => none
      | d :: rest2 => Option.map (fun w => d :: w) (shWord ShMode.norm rest2)
    else if shSpecial c then none
    else Option.map (fun w => c :: w) (shWord ShMode.norm rest)
  | ShMode.single, [] => none
  | ShMode.single, c :: rest =>
    if c = squote then shWord ShMode.norm rest
    else Option.map (fun w => c :: w) (shWord ShMode.single rest)
  | ShMode.double, [] => none
  | ShMode.double, c :: rest =>
    if c = dquote then shWord ShMode.norm rest
    else if c = bslash then
      match rest with
      | [] => none
      | d :: rest2 =>
        if d = dquote ∨ d = bslash ∨ d = '$' ∨ d = btick then
          Option.map (fun w => d :: w) (shWord ShMode.double rest2)
        else Option.map (fun w => bslash :: d :: w) (shWord ShMode.double rest2)
    else if c = '$' ∨ c = btick then none
    else Option.map (fun w => c :: w) (shWord ShMode.double rest)

/-!  ## Provisioner: backend oracle, action traces, `run_post_script_if_needed` -/

/-- Deterministic oracle for everything the provisioner observes from the
host filesystem and the docker backend. -/
structure Backend where
  /-- The invoking user's home directory (`os.path.expanduser`). -/
  hostHome : Chars
  /-- `Path(p).is_file()` on the host. -/
  hostIsFile : Chars → Bool
  /-- Stripped stdout of `docker exec ... printf %s "$HOME"`. -/
  homeOut : Chars
  /-- Whether `[ -f path ]` inside the container succeeds (rc 0). -/
  markerExists : Chars → Bool
  /-- Whether `command -v bash` succeeds inside the container. -/
  bashSupported : Bool
  /-- Stripped stdout of `dirname path` inside the container. -/
  dirnameOut : Chars → Chars
  /-- `(rc, stdout, stderr)` of `docker cp`. -/
  cpRes : Int × Chars × Chars
  /-- `(rc, stdout, stderr)` of running the staged post script. -/
  scriptRes : Int × Chars × Chars
  /-- `(rc, stdout, stderr)` of the marker-writing `: > marker` exec. -/
  markerWriteRes : Int × Chars × Chars

/-- The externally visible steps the provisioner performs, in order: docker
backend calls and messages printed to stdout/stderr. -/
inductive Action where
  /-- `docker exec ... printf %s "$HOME"` (from `container_home`). -/
  | queryHome
  /-- `docker exec ... [ -f marker ]` (from `container_file_exists`). -/
  | checkMarker (path : Chars)
  /-- stdout: `[post] Already set up (marker).` -/
  | reportAlreadySetUp (marker : Chars)
  /-- `docker exec ... command -v c` (from `container_supports`). -/
  | checkSupports (c : Chars)
  /-- stdout: `[post] Copying host_path -> dest_script ...` -/
  | reportCopying (src dest : Chars)
  /-- `docker exec ... dirname dest` (inside `docker_cp_to`). -/
  | dirnameQuery (path : Chars)
  /-- `docker exec ... mkdir -p parent` (inside `docker_cp_to`). -/
  | mkdirParent (dir : Chars)
  /-- `docker cp src container:dest`. -/
  | copy (src dest : Chars)
  /-- stderr: `[post] docker cp failed (rc=...)` with captured output. -/
  | reportCpFailed (rc : Int) (out err : Chars)
  /-- stdout (only with `verbose`): the exec command line. -/
  | reportExecCmd (shell dest : Chars)
  /-- stdout: `[post] Running post script with shell ...` -/
  | reportRunning (shell : Chars)
  /-- `docker exec -i ... shell -lc 'chmod +x dest && dest'`. -/
  | runScript (shell dest : Chars)
  /-- stderr: `[post] Post script failed (rc=...).` -/
  | reportScriptFailed (rc : Int)
  /-- stderr: `[post] stdout: ...` (only when nonempty after strip). -/
  | reportScriptOut (out : Chars)
  /-- stderr: `[post] stderr: ...` (only when nonempty after strip). -/
  | reportScriptErr (err : Chars)
  /-- `docker exec ... : > marker`. -/
  | writeMarker (path : Chars)
  /-- stdout: `[post] Setup complete. Marker: marker`. -/
  | reportSetupComplete (marker : Chars)
deriving DecidableEq

/-- How the provisioner finishes: normal return, or `raise SystemExit code`
(which the interpreter turns into process exit with that code). -/
inductive Outcome where
  | ret
  | exit (code : Int)
deriving DecidableEq

/-- `container_home`: the queried `$HOME`, defaulting to `/root` when the
query yields an empty string (`home or "/root"`). -/
def container_home (b : Backend) : Chars :=
  if b.homeOut = [] then ("/root").data else b.homeOut

/-- Does the path spec start with `~` (Python `path_spec.startswith("~")`)? -/
def startsTilde (p : Chars) : Bool :=
  match p with
  | c :: _ => c = '~'
  | [] => false

/-- `resolve_container_path`: replace a leading `~` with the container's
home directory, other paths verbatim.  (The `container_home` docker call it
performs is accounted as a `queryHome` action at each call site.) -/
def resolve_container_path (b : Backend) (spec : Chars) : Chars :=
  match spec with
  | c :: rest => if c = '~' then container_home b ++ rest else c :: rest
  | [] => []

/-- `os.path.expanduser` for the host script path: a leading `~` (bare or
followed by `/`) is replaced by the invoking user's home directory; a
`~user` form is left unchanged (as Python does when the user is unknown). -/
def expanduser (home : Chars) (p : Chars) : Chars :=
  match p with
  | c :: rest =>
    if c = '~' then
      match rest with
      | [] => home
      | d :: _ => if d = '/' then home ++ rest else c :: rest
    else c :: rest
  | [] => []

/-- `docker_cp_to`: ensure the destination's parent directory exists, then
`docker cp`; on nonzero rc report to stderr and `raise SystemExit(rc)`
(returned as `some rc`). -/
def docker_cp_to (b : Backend) (src dest : Chars) : List Action × Option Int :=
  let parent := b.dirnameOut dest
  let acts := [Action.dirnameQuery dest, Action.mkdirParent parent, Action.copy src dest]
  match b.cpRes with
  | (rc, out, err) =>
    if rc = 0 then (acts, none)
    else (acts ++ [Action.reportCpFailed rc out err], some rc)

/-- `run_post_script_if_needed(container_id, host_script, marker_spec, force,
verbose)`, as the trace of actions it performs and how it finishes.  The
`stage` closure is the part after the marker gate (shell detection, staging
copy, execution, marker write). -/
def run_post_script_if_needed (b : Backend) (host_script marker_spec : Chars)
    (force verbose : Bool) : List Action × Outcome :=
  let host_path := expanduser b.hostHome host_script
  if b.hostIsFile host_path then
    let tActs : List Action := if startsTilde marker_spec then [Action.queryHome] else []
    let marker := resolve_container_path b marker_spec
    let stage : List Action → List Action × Outcome := fun gateActs =>
      let shell := if b.bashSupported then ("bash").data else ("sh").data
      let dest := resolve_container_path b (("~/.dc-postcommand.sh").data)
      let acts1 := gateActs
        ++ [Action.checkSupports (("bash").data), Action.queryHome,
            Action.reportCopying host_path dest]
      match docker_cp_to b host_path dest with
      | (cpActs, some rc) => (acts1 ++ cpActs, Outcome.exit rc)
      | (cpActs, none) =>
        let vActs : List Action := if verbose then [Action.reportExecCmd shell dest] else []
        let acts2 := acts1 ++ cpActs ++ vActs
          ++ [Action.reportRunning shell, Action.runScript shell dest]
        match b.scriptRes with
        | (rc, out, err) =>
          if rc = 0 then
            (acts2 ++ [Action.writeMarker marker, Action.reportSetupComplete marker],
             Outcome.ret)
          else
            (acts2 ++ [Action.reportScriptFailed rc]
              ++ (if pyStrip out = [] then [] else [Action.reportScriptOut out])
              ++ (if pyStrip err = [] then [] else [Action.reportScriptErr err]),
             Outcome.ret)
    if force then stage tActs
    else if b.markerExists marker then
      (tActs ++ [Action.checkMarker marker, Action.reportAlreadySetUp marker], Outcome.ret)
    else stage (tActs ++ [Action.checkMarker marker])
  else ([], Outcome.ret)

/-!  ## Driver: selection resolution (`main`) -/

/-- Numeric value of a decimal digit character. -/
def digitVal (c : Char) : Nat := c.toNat - 48

/-- Continue parsing a Python integer literal after at least one digit:
further digits, with single underscores allowed only between digits. -/
def pyIntGo (acc : Nat) : Chars → Option Nat
  | [] => some acc
  | c :: rest =>
    if c.isDigit then pyIntGo (acc * 10 + digitVal c) rest
    else if c = '_' then
      match rest with
      | [] => none
      | d :: rest2 =>
        if d.isDigit then pyIntGo (acc * 10 + digitVal d) rest2 else none
    else none

/-- Parse a nonempty digit sequence (single underscores allowed between
digits, as Python's `int` accepts). -/
def pyIntDigits : Chars → Option Nat
  | [] => none
  | c :: rest => if c.isDigit then pyIntGo (digitVal c) rest else none

/-- Python `int(s)` (ASCII model): strip surrounding whitespace, optional
sign, then a digit sequence; `none` when `int` would raise `ValueError`. -/
def pyInt (s : Chars) : Option Int :=
  match pyStrip s with
  | '+' :: r => Option.map (fun n => (n : Int)) (pyIntDigits r)
  | '-' :: r => Option.map (fun n => -(n : Int)) (pyIntDigits r)
  | r => Option.map (fun n => (n : Int)) (pyIntDigits r)

/-- A devcontainer record retained by `list_devcontainers`. -/
structure Dev where
  id : Chars
  name : Chars
  image : Chars
  labels : List (Chars × Chars)
deriving DecidableEq

/-- The externally visible steps of `main`'s selection logic: printed lines
and the provisioning/attachment calls. -/
inductive MAct where
  /-- `No running VS Code devcontainers found.` (`toErr`: printed to stderr,
  as in the explicit-selection branch, rather than stdout). -/
  | msgNoneFound (toErr : Bool)
  /-- `Running VS Code devcontainers:` header line. -/
  | msgHeader
  /-- One list line `[idx] name  image  shortId` (idx is 1-based, shortId is
  the first 12 characters of the container id). -/
  | listLine (idx : Nat) (name image shortId : Chars)
  /-- stderr: `Selection must be a number.` -/
  | errNotANumber
  /-- stderr: `Selection out of range.` -/
  | errOutOfRange
  /-- call to `run_post_script_if_needed` for the selected container. -/
  | provision (cid : Chars)
  /-- `docker exec -it cid shell` interactive attachment. -/
  | attachShell (cid : Chars)
deriving DecidableEq

/-- How `main` finishes: plain return (process exit status 0), or
`sys.exit(code)`. -/
inductive MainOut where
  | normal
  | exit (code : Int)
deriving DecidableEq

/-- The `for i, c in enumerate(devcs, 1)` loop of `print_list`: one line
per container, numbered from `i`. -/
def print_lines (i : Nat) : List Dev → List MAct
  | [] => []
  | c :: rest => MAct.listLine i c.name c.image (c.id.take 12) :: print_lines (i + 1) rest

/-- `print_list(devcs)`: a not-found message for an empty list, otherwise a
header followed by 1-based numbered lines of name, image, 12-character id. -/
def print_list (devcs : List Dev) : List MAct :=
  match devcs with
  | [] => [MAct.msgNoneFound false]
  | _ => MAct.msgHeader :: print_lines 1 devcs

/-- The enter sequence of `main` for a chosen container: provision unless
`--skip-post`, then attach the interactive shell. -/
def enterActs (cid : Chars) (skipPost : Bool) : List MAct :=
  (if skipPost then [] else [MAct.provision cid]) ++ [MAct.attachShell cid]

/-- Placeholder record used with `List.getD` at an index the bounds check has
already validated. -/
def devDefault : Dev := Dev.mk [] [] [] []

/-- The selection logic of `main` after `list_devcontainers` produced
`devcs`: the actions performed and the process outcome.  `shellRc` is the
exit status the attached interactive shell session returns. -/
def main_select (devcs : List Dev) (selection : Option Chars) (skipPost : Bool)
    (shellRc : Int) : List MAct × MainOut :=
  match selection with
  | none =>
    match devcs with
    | [d] => (enterActs d.id skipPost, MainOut.exit shellRc)
    | _ => (print_list devcs, MainOut.normal)
  | some s =>
    match devcs with
    | [] => ([MAct.msgNoneFound true], MainOut.exit 1)
    | _ =>
      match pyInt s with
      | none => ([MAct.errNotANumber], MainOut.exit 2)
      | some idx =>
        if idx < 1 ∨ idx > (devcs.length : Int) then
          ([MAct.errOutOfRange], MainOut.exit 3)
        else
          let d := devcs.getD (idx.toNat - 1) devDefault
          (enterActs d.id skipPost, MainOut.exit shellRc)

/-!  ## Trace observations -/

/-- Is this action the `docker cp` staging copy? -/
def isCopyAct : Action → Bool
  | Action.copy _ _ => true
  | _ => false

/-- Is this action the post-script execution? -/
def isRunAct : Action → Bool
  | Action.runScript _ _ => true
  | _ => false

/-- Is this action the marker write? -/
def isWriteMarkerAct : Action → Bool
  | Action.writeMarker _ => true
  | _ => false

/-- Is this action the marker-existence check? -/
def isCheckMarkerAct : Action → Bool
  | Action.checkMarker _ => true
  | _ => false

/-- Is this driver action the interactive attachment? -/
def isAttachAct : MAct → Bool
  | MAct.attachShell _ => true
  | _ => false

/-!  ## Spec-side reading of the classifier (the claim's wording) -/

/-- `s` starts with `p` (as an append decomposition). -/
def StartsWithStr (p s : Chars) : Prop := ∃ t, s = p ++ t

/-- `tok` occurs in `s` as a token delimited by the start/end of the string
or one of the separators `.`, `_`, `-`. -/
def TokenIn (tok s : Chars) : Prop :=
  ∃ pre post, s = pre ++ tok ++ post
    ∧ (pre = [] ∨ ∃ pre2 c, pre = pre2 ++ [c] ∧ isSep c = true)
    ∧ (post = [] ∨ ∃ c post2, post = c :: post2 ∧ isSep c = true)

/-- The claim's reading of a matching label key: starts with `devcontainer.`
or contains `devcontainer` or `vsch` as a delimited token (all after
lowercasing). -/
def LabelKeySpec (k : Chars) : Prop :=
  StartsWithStr (("devcontainer.").data) (lowerStr k)
    ∨ TokenIn (("devcontainer").data) (lowerStr k)
    ∨ TokenIn (("vsch").data) (lowerStr k)

/-- The claim's four-way disjunction defining devcontainer classification. -/
def IsDevcontainerSpec (labels : List (Chars × Chars)) (name : Chars)
    (env : List Chars) : Prop :=
  (∃ kv, kv ∈ labels ∧ LabelKeySpec kv.1)
    ∨ (∃ kv, kv ∈ labels ∧ ∃ p q, lowerStr kv.2 = p ++ ("devcontainer").data ++ q)
    ∨ StartsWithStr (("vsc-").data) (lowerStr name)
    ∨ (∃ e, e ∈ env ∧ upperStr (pyStrip e) = ("DEVCONTAINER=TRUE").data)

/-!  ## Concrete sample backends and containers used by witnesses -/

/-- Witness backend for C5: the host script path does not exist. -/
def bNoScript : Backend :=
  Backend.mk (("/home/u").data) (fun _ => false) (("/root").data) (fun _ => true) true
    (fun _ => ("/root").data) (0, [], []) (0, [], []) (0, [], [])

/-- Witness backend for C2/C3: everything present and succeeding. -/
def bMarked : Backend :=
  Backend.mk (("/home/u").data) (fun _ => true) (("/root").data) (fun _ => true) true
    (fun _ => ("/root").data) (0, [], []) (0, [], []) (0, [], [])

/-- Witness backend for C4: script present, marker absent, copy succeeds,
script exits 7 with some stderr text. -/
def bScriptFails : Backend :=
  Backend.mk (("/home/u").data) (fun _ => true) (("/root").data) (fun _ => false) true
    (fun _ => ("/root").data) (0, [], []) (7, [], ("boom").data) (0, [], [])

/-- Witness backend for C6: script present, marker absent, `docker cp`
fails with status 4. -/
def bCpFails : Backend :=
  Backend.mk (("/home/u").data) (fun _ => true) (("/root").data) (fun _ => false) true
    (fun _ => ("/root").data) (4, [], ("cp error").data) (0, [], []) (0, [], [])

/-- Witness backend for C10: marker absent, everything succeeding except the
marker write itself, which fails with status 9. -/
def bMarkerWriteFails : Backend :=
  Backend.mk (("/home/u").data) (fun _ => true) (("/root").data) (fun _ => false) true
    (fun _ => ("/root").data) (0, [], []) (0, [], []) (9, [], ("write failed").data)

/-- A sample devcontainer record used by the driver witnesses. -/
def devSample : Dev :=
  Dev.mk (("abc1234567890def").data) (("vsc-proj").data) (("img:latest").data) []

/-- A second sample devcontainer record used by the driver witnesses. -/
def devSample2 : Dev :=
  Dev.mk (("ffff234567890abc").data) (("vsc-other").data) (("img2:1").data) []

/-!  ## Supporting lemmas: prefix, substring, token occurrence -/

theorem isPrefixOf_iff : ∀ (p s : Chars), p.isPrefixOf s = true ↔ ∃ t, s = p ++ t
  | [], s => by simp [List.isPrefixOf]
  | c :: p, [] => by simp [List.isPrefixOf]
  | c :: p, d :: s => by
    simp only [List.isPrefixOf, Bool.and_eq_true, beq_iff_eq, isPrefixOf_iff p s,
      List.cons_append, List.cons.injEq]
    constructor
    · rintro ⟨hcd, t, ht⟩
      exact ⟨t, hcd.symm, ht⟩
    · rintro ⟨t, hdc, ht⟩
      exact ⟨hdc.symm, t, ht⟩

theorem containsSub_iff : ∀ (pat s : Chars),
    containsSub pat s = true ↔ ∃ p q, s = p ++ pat ++ q
  | pat, [] => by
    simp only [containsSub, List.isEmpty_iff]
    constructor
    · rintro h
      exact ⟨[], [], by simp [h]⟩
    · rintro ⟨p, q, h⟩
      have hl := congrArg List.length h
      simp only [List.length_nil, List.length_append] at hl
      exact List.length_eq_zero.1 (by omega)
  | pat, c :: rest => by
    simp only [containsSub, Bool.or_eq_true, isPrefixOf_iff, containsSub_iff pat rest]
    constructor
    · rintro (⟨t, ht⟩ | ⟨p, q, h⟩)
      · exact ⟨[], t, by simpa using ht⟩
      · exact ⟨c :: p, q, by simp [h]⟩
    · rintro ⟨p, q, h⟩
      cases p with
      | nil => exact Or.inl ⟨q, by simpa using h⟩
      | cons x p =>
        simp only [List.cons_append, List.cons.injEq] at h
        exact Or.inr ⟨p, q, h.2⟩

theorem sepAt_iff (s : Chars) (i : Nat) :
    sepAt s i = true ↔ ∃ c, s[i]? = some c ∧ isSep c = true := by
  unfold sepAt
  cases h : s[i]? <;> simp [h]

theorem tokenHit_iff (tok s : Chars) : tokenHit tok s = true ↔ TokenIn tok s := by
  unfold tokenHit TokenIn
  rw [List.any_eq_true]
  constructor
  · rintro ⟨i, hmem, hstep⟩
    rw [List.mem_range] at hmem
    have hi : i ≤ s.length := by omega
    simp only [Bool.and_eq_true, Bool.or_eq_true, beq_iff_eq] at hstep
    obtain ⟨⟨hpre, hleft⟩, hright⟩ := hstep
    obtain ⟨t, ht⟩ := (isPrefixOf_iff tok (s.drop i)).1 hpre
    have hsplit : s = s.take i ++ tok ++ t := by
      conv_lhs => rw [← List.take_append_drop i s]
      rw [ht, List.append_assoc]
    have htake : (s.take i).length = i := by
      simp [List.length_take, Nat.min_eq_left hi]
    have htdrop : t = s.drop (i + tok.length) := by
      have : (s.drop i).drop tok.length = t := by rw [ht, List.drop_left]
      rw [← this, List.drop_drop, Nat.add_comm]
    refine ⟨s.take i, t, hsplit, ?_, ?_⟩
    · by_cases hi0 : i = 0
      · exact Or.inl (by simp [hi0])
      · rcases hleft with h0 | hsep
        · exact absurd h0 hi0
        · obtain ⟨c, hc, hcs⟩ := (sepAt_iff s (i - 1)).1 hsep
          obtain ⟨j, rfl⟩ : ∃ j, i = j + 1 := ⟨i - 1, by omega⟩
          refine Or.inr ⟨s.take j, c, ?_, hcs⟩
          have hj : j + 1 - 1 = j := by omega
          rw [hj] at hc
          rw [List.take_succ, hc]
          rfl
    · rcases hright with hend | hsep
      · have hlen := congrArg List.length hsplit
        simp only [List.length_append, htake] at hlen
        have : t.length = 0 := by omega
        exact Or.inl (List.length_eq_zero.1 this)
      · obtain ⟨c, hc, hcs⟩ := (sepAt_iff s (i + tok.length)).1 hsep
        have ht0 : t[0]? = some c := by
          rw [htdrop, List.getElem?_drop, Nat.add_zero, hc]
        cases t with
        | nil => simp at ht0
        | cons c0 t2 =>
          simp only [List.getElem?_cons_zero, Option.some_inj] at ht0
          exact Or.inr ⟨c0, t2, rfl, by rwa [ht0]⟩
  · rintro ⟨pre, post, hs, hl, hr⟩
    refine ⟨pre.length, ?_, ?_⟩
    · rw [List.mem_range]
      have hlen := congrArg List.length hs
      simp only [List.length_append] at hlen
      omega
    · have hdrop : s.drop pre.length = tok ++ post := by
        rw [hs, List.append_assoc, List.drop_left]
      simp only [Bool.and_eq_true, Bool.or_eq_true, beq_iff_eq]
      refine ⟨⟨(isPrefixOf_iff tok _).2 ⟨post, hdrop⟩, ?_⟩, ?_⟩
      · rcases hl with hnil | ⟨pre2, c, hpre, hcs⟩
        · exact Or.inl (by simp [hnil])
        · refine Or.inr ((sepAt_iff s _).2 ⟨c, ?_, hcs⟩)
          have hplen : pre.length = pre2.length + 1 := by simp [hpre]
          have : pre.length - 1 = pre2.length := by omega
          rw [this, hs, hpre]
          rw [List.append_assoc, List.append_assoc,
            List.getElem?_append_right (Nat.le_refl pre2.length)]
          simp
      · rcases hr with hnil | ⟨c, post2, hpost, hcs⟩
        · refine Or.inl ?_
          have hlen := congrArg List.length hs
          simp only [List.length_append, hnil, List.length_nil] at hlen
          omega
        · refine Or.inr ((sepAt_iff s _).2 ⟨c, ?_, hcs⟩)
          rw [hs, hpost]
          have hlen : (pre ++ tok).length = pre.length + tok.length := by
            simp
          rw [← hlen, List.getElem?_append_right (Nat.le_refl (pre ++ tok).length)]
          simp

theorem labelKeyHit_iff (k : Chars) : labelKeyHit k = true ↔ LabelKeySpec k := by
  unfold labelKeyHit LabelKeySpec StartsWithStr
  simp only [Bool.or_eq_true, isPrefixOf_iff, tokenHit_iff]
  exact or_assoc

theorem nameHit_iff (name : Chars) :
    nameHit name = true ↔ StartsWithStr (("vsc-").data) (lowerStr name) := by
  unfold nameHit StartsWithStr
  exact isPrefixOf_iff _ _

theorem envEntryHit_iff (e : Chars) :
    envEntryHit e = true ↔ upperStr (pyStrip e) = ("DEVCONTAINER=TRUE").data := by
  unfold envEntryHit
  have h : upperStr DEV_ENV_VAR = ("DEVCONTAINER=TRUE").data := by decide
  rw [h]
  simp

theorem is_devcontainer_eq (labels : List (Chars × Chars)) (name : Chars)
    (env : List Chars) :
    is_devcontainer labels name env
      = ((labels.any fun kv => labelKeyHit kv.1)
          || (labels.any fun kv => containsSub (("devcontainer").data) (lowerStr kv.2))
          || nameHit name || env.any envEntryHit) := by
  unfold is_devcontainer
  cases labels.any fun kv => labelKeyHit kv.1 <;>
    cases labels.any fun kv => containsSub (("devcontainer").data) (lowerStr kv.2) <;>
      cases nameHit name <;> cases env.any envEntryHit <;> simp

/-- C1: for every label mapping, container name, and environment list,
`is_devcontainer` returns true if and only if some label key starts with
`devcontainer.` or contains `devcontainer` or `vsch` as a token delimited by
start/end of string or one of `.`, `_`, `-`; or some label value contains the
substring `devcontainer`; or the name starts with `vsc-`; or some environment
entry, trimmed and upper-cased, equals `DEVCONTAINER=TRUE` (all matching
case-insensitive, modelled by lowercasing/uppercasing).  In particular, a
container with empty labels, a name not starting with `vsc-`, and no matching
environment entry classifies as false. -/
theorem is_devcontainer_matches_spec :
    (∀ (labels : List (Chars × Chars)) (name : Chars) (env : List Chars),
        is_devcontainer labels name env = true ↔ IsDevcontainerSpec labels name env)
    ∧ (∀ (name : Chars) (env : List Chars), nameHit name = false →
        env.any envEntryHit = false → is_devcontainer [] name env = false) := by
  constructor
  · intro labels name env
    rw [is_devcontainer_eq]
    unfold IsDevcontainerSpec
    simp only [Bool.or_eq_true, List.any_eq_true, labelKeyHit_iff, containsSub_iff,
      nameHit_iff, envEntryHit_iff]
    rw [or_assoc, or_assoc]
  · intro name env hn he
    rw [is_devcontainer_eq, hn, he]
    simp

/-- Witness for C1: a concrete container with empty labels, name `myapp`, and
a single non-matching environment entry is not classified as a devcontainer. -/
theorem is_devcontainer_matches_spec_witness :
    nameHit (("myapp").data) = false
      ∧ [("PATH=/usr/bin").data].any envEntryHit = false
      ∧ is_devcontainer [] (("myapp").data) [("PATH=/usr/bin").data] = false :=
  ⟨by decide, by decide,
    is_devcontainer_matches_spec.2 (("myapp").data) [("PATH=/usr/bin").data]
      (by decide) (by decide)⟩

theorem squote_ne_dquote : squote ≠ dquote := by decide

theorem dquote_ne_squote : dquote ≠ squote := by decide

theorem squote_ne_bslash : squote ≠ bslash := by decide

theorem squote_ne_dollar : squote ≠ '$' := by decide

theorem squote_ne_btick : squote ≠ btick := by decide

theorem shWord_norm_nil : shWord ShMode.norm [] = some [] := by
  simp [shWord]

theorem shWord_norm_squote (rest : Chars) :
    shWord ShMode.norm (squote :: rest) = shWord ShMode.single rest := by
  cases rest <;> simp [shWord]

theorem shWord_norm_dquote (rest : Chars) :
    shWord ShMode.norm (dquote :: rest) = shWord ShMode.double rest := by
  cases rest <;> simp [shWord, dquote_ne_squote]

theorem shWord_single_cons (c : Char) (rest : Chars) :
    shWord ShMode.single (c :: rest)
      = if c = squote then shWord ShMode.norm rest
        else Option.map (fun w => c :: w) (shWord ShMode.single rest) := by
  simp [shWord]

theorem shWord_double_squote (rest : Chars) :
    shWord ShMode.double (squote :: rest)
      = Option.map (fun w => squote :: w) (shWord ShMode.double rest) := by
  cases rest <;>
    simp [shWord, squote_ne_dquote, squote_ne_bslash, squote_ne_dollar, squote_ne_btick]

theorem shWord_double_dquote (rest : Chars) :
    shWord ShMode.double (dquote :: rest) = shWord ShMode.norm rest := by
  cases rest <;> simp [shWord]

/-- Stepping the parser, in single-quote mode, over the five-character
escape sequence `sh_quote` emits for an embedded single quote yields that
single quote literally and returns to single-quote mode. -/
theorem shWord_single_quote_step (rest : Chars) :
    shWord ShMode.single (squote :: dquote :: squote :: dquote :: squote :: rest)
      = Option.map (fun w => squote :: w) (shWord ShMode.single rest) := by
  rw [shWord_single_cons, if_pos rfl, shWord_norm_dquote, shWord_double_squote,
    shWord_double_dquote, shWord_norm_squote]

/-- C7: quoting round-trip — for every string `s`, parsing `sh_quote s` as a
single word under POSIX shell quoting rules yields exactly `s` (so no
injection or word splitting is possible). -/
theorem sh_quote_roundtrip (s : Chars) :
    shWord ShMode.norm (sh_quote s) = some s := by
  have aux : ∀ t : Chars,
      shWord ShMode.single (t.flatMap replQuote ++ [squote]) = some t := by
    intro t
    induction t with
    | nil =>
      show shWord ShMode.single (squote :: []) = some []
      rw [shWord_single_cons, if_pos rfl, shWord_norm_nil]
    | cons c t ih =>
      by_cases hc : c = squote
      · subst hc
        rw [List.flatMap_cons]
        calc shWord ShMode.single (replQuote squote ++ (t.flatMap replQuote ++ [squote]))
            = shWord ShMode.single
                (squote :: dquote :: squote :: dquote :: squote
                  :: (t.flatMap replQuote ++ [squote])) := by rw [replQuote, if_pos rfl]; rfl
          _ = Option.map (fun w => squote :: w)
                (shWord ShMode.single (t.flatMap replQuote ++ [squote])) :=
              shWord_single_quote_step _
          _ = some (squote :: t) := by rw [ih]; rfl
      · rw [List.flatMap_cons]
        have hr : replQuote c = [c] := by simp [replQuote, hc]
        rw [hr]
        show shWord ShMode.single (c :: (t.flatMap replQuote ++ [squote])) = some (c :: t)
        rw [shWord_single_cons, if_neg hc, ih]
        rfl
  rw [sh_quote, shWord_norm_squote]
  exact aux s

/-- C5: when the resolved host script path (leading `~` expanded to the
invoking user's home) is not an existing regular file, the provisioner is a
silent no-op: it returns normally, performing no backend calls, no copy and
no execution (the action trace is empty). -/
theorem missing_host_script_noop (b : Backend) (hs ms : Chars) (force v : Bool)
    (hfile : b.hostIsFile (expanduser b.hostHome hs) = false) :
    run_post_script_if_needed b hs ms force v = ([], Outcome.ret) := by
  simp [run_post_script_if_needed, hfile]

/-- Witness for C5 at a concrete backend and arguments. -/
theorem missing_host_script_noop_witness :
    bNoScript.hostIsFile (expanduser bNoScript.hostHome (("~/dc-postcommand.sh").data)) = false
      ∧ run_post_script_if_needed bNoScript (("~/dc-postcommand.sh").data)
          (("~/.dc-post-setup-done").data) false false = ([], Outcome.ret) :=
  ⟨rfl, missing_host_script_noop bNoScript (("~/dc-postcommand.sh").data)
    (("~/.dc-post-setup-done").data) false false rfl⟩

/-- C2: idempotence gate — when the host script exists, the resolved marker
file already exists in the container, and `force` is false, the provisioner
reports completion (`[post] Already set up`) and returns normally, performing
no copy into the container and no script execution. -/
theorem marker_gate_idempotence (b : Backend) (hs ms : Chars) (v : Bool)
    (hfile : b.hostIsFile (expanduser b.hostHome hs) = true)
    (hmarker : b.markerExists (resolve_container_path b ms) = true) :
    (run_post_script_if_needed b hs ms false v).2 = Outcome.ret
      ∧ ((run_post_script_if_needed b hs ms false v).1.any isCopyAct) = false
      ∧ ((run_post_script_if_needed b hs ms false v).1.any isRunAct) = false
      ∧ Action.reportAlreadySetUp (resolve_container_path b ms)
          ∈ (run_post_script_if_needed b hs ms false v).1 := by
  by_cases ht : startsTilde ms <;>
    simp [run_post_script_if_needed, hfile, hmarker, ht, isCopyAct, isRunAct]

/-- Witness for C2 at a concrete backend and arguments. -/
theorem marker_gate_idempotence_witness :
    bMarked.hostIsFile (expanduser bMarked.hostHome (("~/dc-postcommand.sh").data)) = true
      ∧ bMarked.markerExists
          (resolve_container_path bMarked (("~/.dc-post-setup-done").data)) = true
      ∧ (run_post_script_if_needed bMarked (("~/dc-postcommand.sh").data)
          (("~/.dc-post-setup-done").data) false false).2 = Outcome.ret
      ∧ ((run_post_script_if_needed bMarked (("~/dc-postcommand.sh").data)
          (("~/.dc-post-setup-done").data) false false).1.any isCopyAct) = false :=
  ⟨rfl, rfl,
    (marker_gate_idempotence bMarked (("~/dc-postcommand.sh").data)
      (("~/.dc-post-setup-done").data) false rfl rfl).1,
    (marker_gate_idempotence bMarked (("~/dc-postcommand.sh").data)
      (("~/.dc-post-setup-done").data) false rfl rfl).2.1⟩

/-- C4: when the post-setup script execution returns a nonzero exit code,
the provisioner reports the failure (exit code, and captured output/error
when nonempty) to stderr and returns normally — no exception, no `SystemExit`
— and never writes the marker file, leaving provisioning eligible for retry. -/
theorem script_failure_withholds_marker (b : Backend) (hs ms : Chars) (force v : Bool)
    (cpo cpe sout serr : Chars) (src : Int)
    (hfile : b.hostIsFile (expanduser b.hostHome hs) = true)
    (hgate : force = true ∨ b.markerExists (resolve_container_path b ms) = false)
    (hcp : b.cpRes = (0, cpo, cpe))
    (hscript : b.scriptRes = (src, sout, serr))
    (hsrc : src ≠ 0) :
    (run_post_script_if_needed b hs ms force v).2 = Outcome.ret
      ∧ Action.reportScriptFailed src ∈ (run_post_script_if_needed b hs ms force v).1
      ∧ ((run_post_script_if_needed b hs ms force v).1.any isWriteMarkerAct) = false := by
  cases force with
  | true =>
    by_cases ht : startsTilde ms <;> by_cases hv : v <;>
      by_cases ho : pyStrip sout = [] <;> by_cases he : pyStrip serr = [] <;>
        simp [run_post_script_if_needed, docker_cp_to, hfile, hcp, hscript, hsrc,
          ht, hv, ho, he, isWriteMarkerAct]
  | false =>
    have hnomark : b.markerExists (resolve_container_path b ms) = false := by
      rcases hgate with h | h
      · exact absurd h (by simp)
      · exact h
    by_cases ht : startsTilde ms <;> by_cases hv : v <;>
      by_cases ho : pyStrip sout = [] <;> by_cases he : pyStrip serr = [] <;>
        simp [run_post_script_if_needed, docker_cp_to, hfile, hcp, hscript, hsrc,
          hnomark, ht, hv, ho, he, isWriteMarkerAct]

/-- Witness for C4 at a concrete backend and arguments. -/
theorem script_failure_withholds_marker_witness :
    bScriptFails.hostIsFile (expanduser bScriptFails.hostHome (("~/dc-postcommand.sh").data))
        = true
      ∧ bScriptFails.markerExists
          (resolve_container_path bScriptFails (("~/.dc-post-setup-done").data)) = false
      ∧ bScriptFails.scriptRes = ((7 : Int), [], ("boom").data)
      ∧ (run_post_script_if_needed bScriptFails (("~/dc-postcommand.sh").data)
          (("~/.dc-post-setup-done").data) false false).2 = Outcome.ret
      ∧ ((run_post_script_if_needed bScriptFails (("~/dc-postcommand.sh").data)
          (("~/.dc-post-setup-done").data) false false).1.any isWriteMarkerAct) = false := by
  have h := script_failure_withholds_marker bScriptFails (("~/dc-postcommand.sh").data)
    (("~/.dc-post-setup-done").data) false false [] [] [] (("boom").data) 7
    rfl (Or.inr rfl) rfl rfl (by decide)
  exact ⟨rfl, rfl, rfl, h.1, h.2.2⟩

/-- C6: when the host-to-container copy fails (nonzero `docker cp` status),
the provisioner reports the failure to stderr and aborts the whole program
via `SystemExit` carrying the backend's own status; the script is never
executed and the marker is never written. -/
theorem copy_failure_fatal (b : Backend) (hs ms : Chars) (force v : Bool)
    (cpo cpe : Chars) (rc : Int)
    (hfile : b.hostIsFile (expanduser b.hostHome hs) = true)
    (hgate : force = true ∨ b.markerExists (resolve_container_path b ms) = false)
    (hcp : b.cpRes = (rc, cpo, cpe))
    (hrc : rc ≠ 0) :
    (run_post_script_if_needed b hs ms force v).2 = Outcome.exit rc
      ∧ Action.reportCpFailed rc cpo cpe ∈ (run_post_script_if_needed b hs ms force v).1
      ∧ ((run_post_script_if_needed b hs ms force v).1.any isRunAct) = false
      ∧ ((run_post_script_if_needed b hs ms force v).1.any isWriteMarkerAct) = false := by
  cases force with
  | true =>
    by_cases ht : startsTilde ms <;>
      simp [run_post_script_if_needed, docker_cp_to, hfile, hcp, hrc, ht,
        isRunAct, isWriteMarkerAct]
  | false =>
    have hnomark : b.markerExists (resolve_container_path b ms) = false := by
      rcases hgate with h | h
      · exact absurd h (by simp)
      · exact h
    by_cases ht : startsTilde ms <;>
      simp [run_post_script_if_needed, docker_cp_to, hfile, hcp, hrc, hnomark, ht,
        isRunAct, isWriteMarkerAct]

/-- Witness for C6 at a concrete backend and arguments. -/
theorem copy_failure_fatal_witness :
    bCpFails.hostIsFile (expanduser bCpFails.hostHome (("~/dc-postcommand.sh").data)) = true
      ∧ bCpFails.cpRes = ((4 : Int), [], ("cp error").data)
      ∧ (run_post_script_if_needed bCpFails (("~/dc-postcommand.sh").data)
          (("~/.dc-post-setup-done").data) false false).2 = Outcome.exit 4
      ∧ ((run_post_script_if_needed bCpFails (("~/dc-postcommand.sh").data)
          (("~/.dc-post-setup-done").data) false false).1.any isRunAct) = false := by
  have h := copy_failure_fatal bCpFails (("~/dc-postcommand.sh").data)
    (("~/.dc-post-setup-done").data) false false [] (("cp error").data) 4
    rfl (Or.inr rfl) rfl (by decide)
  exact ⟨rfl, rfl, h.1, h.2.2.1⟩

/-- C3: with `force = true` and an existing marker, the provisioner bypasses
the marker-existence check (no `checkMarker` backend call at all), re-copies
the host script into the container, and re-executes it; after a successful
rerun a new marker write (and only then) ends the trace — and since the
action vocabulary has one constructor per backend call the source makes,
the full trace also shows the marker is never deleted first. -/
theorem force_reprovisions (b : Backend) (hs ms : Chars) (v : Bool)
    (cpo cpe sout serr : Chars) (src : Int)
    (hfile : b.hostIsFile (expanduser b.hostHome hs) = true)
    (hmarker : b.markerExists (resolve_container_path b ms) = true)
    (hcp : b.cpRes = (0, cpo, cpe))
    (hscript : b.scriptRes = (src, sout, serr)) :
    ((run_post_script_if_needed b hs ms true v).1.any isCheckMarkerAct) = false
      ∧ Action.copy (expanduser b.hostHome hs)
          (resolve_container_path b (("~/.dc-postcommand.sh").data))
          ∈ (run_post_script_if_needed b hs ms true v).1
      ∧ ((run_post_script_if_needed b hs ms true v).1.any isRunAct) = true
      ∧ (src = 0 →
          ∃ pre, (run_post_script_if_needed b hs ms true v).1
              = pre ++ [Action.writeMarker (resolve_container_path b ms),
                  Action.reportSetupComplete (resolve_container_path b ms)]
            ∧ (pre.any isRunAct) = true) := by
  refine ⟨?_, ?_, ?_, ?_⟩
  · by_cases hsrc : src = 0 <;> by_cases ht : startsTilde ms <;> by_cases hv : v <;>
      by_cases ho : pyStrip sout = [] <;> by_cases he : pyStrip serr = [] <;>
        simp [run_post_script_if_needed, docker_cp_to, hfile, hcp, hscript, hsrc,
          ht, hv, ho, he, isCheckMarkerAct]
  · by_cases hsrc : src = 0 <;> by_cases ht : startsTilde ms <;> by_cases hv : v <;>
      by_cases ho : pyStrip sout = [] <;> by_cases he : pyStrip serr = [] <;>
        simp [run_post_script_if_needed, docker_cp_to, hfile, hcp, hscript, hsrc,
          ht, hv, ho, he]
  · by_cases hsrc : src = 0 <;> by_cases ht : startsTilde ms <;> by_cases hv : v <;>
      by_cases ho : pyStrip sout = [] <;> by_cases he : pyStrip serr = [] <;>
        simp [run_post_script_if_needed, docker_cp_to, hfile, hcp, hscript, hsrc,
          ht, hv, ho, he, isRunAct]
  · intro hsrc
    subst hsrc
    refine ⟨(if startsTilde ms then [Action.queryHome] else [])
        ++ [Action.checkSupports (("bash").data), Action.queryHome,
            Action.reportCopying (expanduser b.hostHome hs)
              (resolve_container_path b (("~/.dc-postcommand.sh").data)),
            Action.dirnameQuery (resolve_container_path b (("~/.dc-postcommand.sh").data)),
            Action.mkdirParent
              (b.dirnameOut (resolve_container_path b (("~/.dc-postcommand.sh").data))),
            Action.copy (expanduser b.hostHome hs)
              (resolve_container_path b (("~/.dc-postcommand.sh").data))]
        ++ (if v then
              [Action.reportExecCmd (if b.bashSupported then ("bash").data else ("sh").data)
                (resolve_container_path b (("~/.dc-postcommand.sh").data))]
            else [])
        ++ [Action.reportRunning (if b.bashSupported then ("bash").data else ("sh").data),
            Action.runScript (if b.bashSupported then ("bash").data else ("sh").data)
              (resolve_container_path b (("~/.dc-postcommand.sh").data))], ?_, ?_⟩
    · by_cases ht : startsTilde ms <;> by_cases hv : v <;>
        simp [run_post_script_if_needed, docker_cp_to, hfile, hcp, hscript, ht, hv]
    · by_cases ht : startsTilde ms <;> by_cases hv : v <;> simp [isRunAct, ht, hv]

/-- Witness for C3 at a concrete backend and arguments (reusing the
all-succeeding backend with an existing marker). -/
theorem force_reprovisions_witness :
    bMarked.markerExists
        (resolve_container_path bMarked (("~/.dc-post-setup-done").data)) = true
      ∧ ((run_post_script_if_needed bMarked (("~/dc-postcommand.sh").data)
          (("~/.dc-post-setup-done").data) true false).1.any isCheckMarkerAct) = false
      ∧ ((run_post_script_if_needed bMarked (("~/dc-postcommand.sh").data)
          (("~/.dc-post-setup-done").data) true false).1.any isRunAct) = true := by
  have h := force_reprovisions bMarked (("~/dc-postcommand.sh").data)
    (("~/.dc-post-setup-done").data) false [] [] [] [] 0 rfl rfl rfl rfl
  exact ⟨rfl, h.1, h.2.2.1⟩

/-- C10: the `run_rc` result of the marker-writing exec is discarded — the
provisioner's behaviour (trace and outcome) is independent of the marker
write's status, and after a successful script run it reports `Setup
complete` and returns normally even when the marker write itself fails,
leaving the container eligible for re-provisioning next time while this run
still reports completion. -/
theorem marker_write_status_discarded :
    (∀ (hh : Chars) (hf : Chars → Bool) (ho : Chars) (me : Chars → Bool) (bs : Bool)
        (dn : Chars → Chars) (cp sc w1 w2 : Int × Chars × Chars)
        (hs ms : Chars) (force v : Bool),
        run_post_script_if_needed (Backend.mk hh hf ho me bs dn cp sc w1) hs ms force v
          = run_post_script_if_needed (Backend.mk hh hf ho me bs dn cp sc w2) hs ms force v)
    ∧ (∀ (b : Backend) (hs ms : Chars) (force v : Bool) (cpo cpe sout serr : Chars),
        b.hostIsFile (expanduser b.hostHome hs) = true →
        (force = true ∨ b.markerExists (resolve_container_path b ms) = false) →
        b.cpRes = (0, cpo, cpe) → b.scriptRes = (0, sout, serr) →
        (run_post_script_if_needed b hs ms force v).2 = Outcome.ret
          ∧ Action.writeMarker (resolve_container_path b ms)
              ∈ (run_post_script_if_needed b hs ms force v).1
          ∧ Action.reportSetupComplete (resolve_container_path b ms)
              ∈ (run_post_script_if_needed b hs ms force v).1) := by
  constructor
  · intro hh hf ho me bs dn cp sc w1 w2 hs ms force v
    rfl
  · intro b hs ms force v cpo cpe sout serr hfile hgate hcp hscript
    cases force with
    | true =>
      by_cases ht : startsTilde ms <;> by_cases hv : v <;>
        simp [run_post_script_if_needed, docker_cp_to, hfile, hcp, hscript, ht, hv]
    | false =>
      have hnomark : b.markerExists (resolve_container_path b ms) = false := by
        rcases hgate with h | h
        · exact absurd h (by simp)
        · exact h
      by_cases ht : startsTilde ms <;> by_cases hv : v <;>
        simp [run_post_script_if_needed, docker_cp_to, hfile, hcp, hscript, hnomark, ht, hv]

/-- Witness for C10: with the failing marker write the run still reports
completion and returns normally, and the result equals the run with a
succeeding marker write. -/
theorem marker_write_status_discarded_witness :
    run_post_script_if_needed bMarkerWriteFails (("~/dc-postcommand.sh").data)
        (("~/.dc-post-setup-done").data) false false
      = run_post_script_if_needed
          (Backend.mk (("/home/u").data) (fun _ => true) (("/root").data) (fun _ => false) true
            (fun _ => ("/root").data) (0, [], []) (0, [], []) (0, [], []))
          (("~/dc-postcommand.sh").data) (("~/.dc-post-setup-done").data) false false
      ∧ (run_post_script_if_needed bMarkerWriteFails (("~/dc-postcommand.sh").data)
          (("~/.dc-post-setup-done").data) false false).2 = Outcome.ret
      ∧ Action.reportSetupComplete
            (resolve_container_path bMarkerWriteFails (("~/.dc-post-setup-done").data))
          ∈ (run_post_script_if_needed bMarkerWriteFails (("~/dc-postcommand.sh").data)
              (("~/.dc-post-setup-done").data) false false).1 := by
  have h1 := marker_write_status_discarded.1 (("/home/u").data) (fun _ => true)
    (("/root").data) (fun _ => false) true (fun _ => ("/root").data)
    (0, [], []) (0, [], []) ((9 : Int), [], ("write failed").data) (0, [], [])
    (("~/dc-postcommand.sh").data) (("~/.dc-post-setup-done").data) false false
  have h2 := marker_write_status_discarded.2 bMarkerWriteFails
    (("~/dc-postcommand.sh").data) (("~/.dc-post-setup-done").data) false false
    [] [] [] [] rfl (Or.inr rfl) rfl rfl
  exact ⟨h1, h2.1, h2.2.2⟩

/-!  ## Driver lemmas and claims -/

theorem print_lines_mem : ∀ (l : List Dev) (j i : Nat) (h : i < l.length),
    MAct.listLine (j + i) (l.get ⟨i, h⟩).name (l.get ⟨i, h⟩).image
      ((l.get ⟨i, h⟩).id.take 12) ∈ print_lines j l
  | [], _, i, h => by simp at h
  | c :: rest, j, 0, h => by simp [print_lines]
  | c :: rest, j, i + 1, h => by
    have ih := print_lines_mem rest (j + 1) i (by simpa using h)
    simp only [print_lines]
    apply List.mem_cons_of_mem
    have hj : j + (i + 1) = j + 1 + i := by omega
    rw [hj]
    simpa using ih

theorem print_lines_no_attach : ∀ (j : Nat) (l : List Dev),
    ((print_lines j l).any isAttachAct) = false
  | _, [] => rfl
  | j, c :: rest => by
    simp [print_lines, isAttachAct, print_lines_no_attach (j + 1) rest]

theorem print_list_no_attach (devcs : List Dev) :
    ((print_list devcs).any isAttachAct) = false := by
  cases devcs with
  | nil => rfl
  | cons d rest => simp [print_list, isAttachAct, print_lines_no_attach]

/-- C9: implicit selection flow — with no explicit selection argument, a
single candidate is auto-selected: provisioning runs (unless skipped) and the
interactive shell is attached, the process exiting with the shell's status;
with zero or multiple candidates the program prints the (1-based numbered)
list and returns normally (process status 0) without attaching.  The third
conjunct pins the list's content: line `i + 1` carries the `i`-th
candidate's name, image, and 12-character short id. -/
theorem implicit_selection_flow :
    (∀ (d : Dev) (skip : Bool) (rc : Int),
        main_select [d] none skip rc
          = ((if skip then [] else [MAct.provision d.id]) ++ [MAct.attachShell d.id],
            MainOut.exit rc))
    ∧ (∀ (devcs : List Dev) (skip : Bool) (rc : Int), devcs.length ≠ 1 →
        main_select devcs none skip rc = (print_list devcs, MainOut.normal)
          ∧ ((print_list devcs).any isAttachAct) = false)
    ∧ (∀ (devcs : List Dev) (i : Nat) (h : i < devcs.length),
        MAct.listLine (i + 1) (devcs.get ⟨i, h⟩).name (devcs.get ⟨i, h⟩).image
          ((devcs.get ⟨i, h⟩).id.take 12) ∈ print_list devcs) := by
  refine ⟨?_, ?_, ?_⟩
  · intro d skip rc
    rfl
  · intro devcs skip rc hlen
    refine ⟨?_, print_list_no_attach devcs⟩
    rcases devcs with _ | ⟨d, _ | ⟨e, rest⟩⟩
    · rfl
    · exact absurd rfl hlen
    · rfl
  · intro devcs i h
    cases devcs with
    | nil => simp at h
    | cons d rest =>
      have hm := print_lines_mem (d :: rest) 1 i h
      have hj : 1 + i = i + 1 := by omega
      rw [hj] at hm
      exact List.mem_cons_of_mem _ hm

/-- Witness for C9 at concrete candidate lists. -/
theorem implicit_selection_flow_witness :
    main_select [devSample] none false 5
        = ([MAct.provision devSample.id, MAct.attachShell devSample.id], MainOut.exit 5)
      ∧ main_select [devSample, devSample2] none false 5
          = (print_list [devSample, devSample2], MainOut.normal)
      ∧ MAct.listLine 2 devSample2.name devSample2.image (devSample2.id.take 12)
          ∈ print_list [devSample, devSample2] := by
  refine ⟨?_, ?_, ?_⟩
  · have h := implicit_selection_flow.1 devSample false 5
    simpa using h
  · exact (implicit_selection_flow.2.1 [devSample, devSample2] false 5 (by decide)).1
  · have h := implicit_selection_flow.2.2 [devSample, devSample2] 1 (by decide)
    simpa using h

/-- C8: explicit selection resolution — with an explicit selection argument,
the program exits 1 when the candidate list is empty; otherwise exits 2 when
the argument is not a valid integer; otherwise exits 3 when the integer lies
outside `[1, candidateCount]`; otherwise selects the candidate at that
1-based index, provisions it (unless skipped), attaches the shell, and exits
with the shell session's status. -/
theorem explicit_selection_resolution :
    (∀ (s : Chars) (skip : Bool) (rc : Int),
        main_select [] (some s) skip rc = ([MAct.msgNoneFound true], MainOut.exit 1))
    ∧ (∀ (devcs : List Dev) (s : Chars) (skip : Bool) (rc : Int), devcs ≠ [] →
        pyInt s = none →
        main_select devcs (some s) skip rc = ([MAct.errNotANumber], MainOut.exit 2))
    ∧ (∀ (devcs : List Dev) (s : Chars) (skip : Bool) (rc : Int) (i : Int), devcs ≠ [] →
        pyInt s = some i → (i < 1 ∨ i > (devcs.length : Int)) →
        main_select devcs (some s) skip rc = ([MAct.errOutOfRange], MainOut.exit 3))
    ∧ (∀ (devcs : List Dev) (s : Chars) (skip : Bool) (rc : Int) (i : Int), devcs ≠ [] →
        pyInt s = some i → (h1 : 1 ≤ i) → (h2 : i ≤ (devcs.length : Int)) →
        main_select devcs (some s) skip rc
          = ((if skip then []
              else [MAct.provision
                (devcs.get ⟨i.toNat - 1, by omega⟩).id])
              ++ [MAct.attachShell (devcs.get ⟨i.toNat - 1, by omega⟩).id],
            MainOut.exit rc)) := by
  refine ⟨?_, ?_, ?_, ?_⟩
  · intro s skip rc
    rfl
  · intro devcs s skip rc hne hpy
    rcases devcs with _ | ⟨d, rest⟩
    · exact absurd rfl hne
    · simp [main_select, hpy]
  · intro devcs s skip rc i hne hpy hout
    rcases devcs with _ | ⟨d, rest⟩
    · exact absurd rfl hne
    · simp only [main_select, hpy]
      rw [if_pos]
      simpa using hout
  · intro devcs s skip rc i hne hpy h1 h2
    rcases devcs with _ | ⟨d, rest⟩
    · exact absurd rfl hne
    · simp only [main_select, hpy]
      rw [if_neg (by push_neg; exact ⟨h1, h2⟩)]
      simp only [enterActs]
      rw [List.getD_eq_get _ devDefault (by omega)]

/-- Witness for C8 at concrete candidate lists and selection strings. -/
theorem explicit_selection_resolution_witness :
    main_select [] (some (("1").data)) false 0 = ([MAct.msgNoneFound true], MainOut.exit 1)
      ∧ main_select [devSample] (some (("abc").data)) false 0
          = ([MAct.errNotANumber], MainOut.exit 2)
      ∧ main_select [devSample, devSample2] (some (("3").data)) false 0
          = ([MAct.errOutOfRange], MainOut.exit 3)
      ∧ main_select [devSample, devSample2] (some (("2").data)) false 7
          = ([MAct.provision devSample2.id, MAct.attachShell devSample2.id],
            MainOut.exit 7) := by
  refine ⟨?_, ?_, ?_, ?_⟩
  · exact explicit_selection_resolution.1 (("1").data) false 0
  · exact explicit_selection_resolution.2.1 [devSample] (("abc").data) false 0
      (by decide) (by decide)
  · exact explicit_selection_resolution.2.2.1 [devSample, devSample2] (("3").data) false 0 3
      (by decide) (by decide) (by decide)
  · have h := explicit_selection_resolution.2.2.2 [devSample, devSample2] (("2").data)
      false 7 2 (by decide) (by decide) (by decide) (by decide)
    simpa using h

end DCE
